import Mathlib

/-!
Verification development for the `fly` flight-control repository.

Part 1 embeds the telemetry-log schema of `TODO/log_manager.h` and a model of
the asynchronous log manager whose implementation file is not part of the
sources (only the header with its documented API is); the model follows the
specification text.

Part 2 embeds the settings loader of `src/settings.c`.
-/

/- ### Part 1: log schema (from TODO/log_manager.h) -/

/-- The two C field types appearing in `LOG_TABLE`. -/
inductive CType
  | uint64_t
  | double
deriving DecidableEq, Repr

/-- One `X(type, fmt, name)` row of the `LOG_TABLE` macro table. -/
structure LogField where
  ctype : CType
  fmt : String
  name : String
deriving DecidableEq, Repr

/-- The `LOG_TABLE` macro of `log_manager.h`: the ordered list of
`X(type, fmt, name)` rows, transcribed verbatim. -/
def LOG_TABLE : List LogField :=
  [ ⟨.uint64_t, "%lld", "loop_index"⟩
  , ⟨.uint64_t, "%lld", "last_step_us"⟩
  , ⟨.double, "%f", "altitude"⟩
  , ⟨.double, "%f", "roll"⟩
  , ⟨.double, "%f", "pitch"⟩
  , ⟨.double, "%f", "yaw"⟩
  , ⟨.double, "%f", "u_X"⟩
  , ⟨.double, "%f", "u_Y"⟩
  , ⟨.double, "%f", "u_Z"⟩
  , ⟨.double, "%f", "u_roll"⟩
  , ⟨.double, "%f", "u_pitch"⟩
  , ⟨.double, "%f", "u_yaw"⟩
  , ⟨.double, "%f", "mot_1"⟩
  , ⟨.double, "%f", "mot_2"⟩
  , ⟨.double, "%f", "mot_3"⟩
  , ⟨.double, "%f", "mot_4"⟩
  , ⟨.double, "%f", "mot_5"⟩
  , ⟨.double, "%f", "mot_6"⟩
  , ⟨.double, "%f", "v_batt"⟩ ]

/-- The in-memory struct layout of `log_entry_t`: produced by expanding
`#define X(type, fmt, name) type name ;` over `LOG_TABLE`, i.e. the field
list is derived from the single table. -/
def log_entry_t_fields : List (CType × String) :=
  LOG_TABLE.map fun f => (f.ctype, f.name)

/-- A value of the `log_entry_t` struct.  `uint64_t` fields are modelled as
`Nat`, `double` fields as `Rat`. -/
structure log_entry_t where
  loop_index : Nat
  last_step_us : Nat
  altitude : Rat
  roll : Rat
  pitch : Rat
  yaw : Rat
  u_X : Rat
  u_Y : Rat
  u_Z : Rat
  u_roll : Rat
  u_pitch : Rat
  u_yaw : Rat
  mot_1 : Rat
  mot_2 : Rat
  mot_3 : Rat
  mot_4 : Rat
  mot_5 : Rat
  mot_6 : Rat
  v_batt : Rat
deriving DecidableEq, Repr

/- ### Part 1b: log manager model.

`log_manager.c` is not among the sources; only `log_manager.h` declares
`start_log_manager`, `print_entry`, `add_log_entry` and
`join_log_manager_thread` with their return conventions.  The following
definitions are therefore modelled from the specification of the
asynchronous log manager (entry buffer, writer thread, lifecycle). -/

/-- Modelled from the spec: the `LoggerState` lifecycle enum
`Uninitialized → Running → Draining → Stopped`, plus the terminal `Failed`. -/
inductive LoggerState
  | Uninitialized
  | Running
  | Draining
  | Stopped
  | Failed
deriving DecidableEq, Repr

/-- Modelled from the spec: the state owned by the log manager — lifecycle
state, the bounded FIFO entry buffer with its fixed capacity, the data rows
already written to the CSV file, whether the file is open, and the
dropped-entry diagnostic counter. -/
structure log_manager_state where
  status : LoggerState
  buffer : List log_entry_t
  capacity : Nat
  file_rows : List log_entry_t
  file_open : Bool
  dropped : Nat
deriving DecidableEq, Repr

/-- Modelled from the spec: the process state before `start` is ever
called. -/
def log_manager_init : log_manager_state :=
  { status := .Uninitialized, buffer := [], capacity := 0
  , file_rows := [], file_open := false, dropped := 0 }

/-- Modelled from the spec: `start_log_manager` — fails with `AlreadyRunning`
when the state is `Running`/`Draining`; fails with `FileCreateError` (state
escalates to `Failed`) when the CSV file cannot be created (`fileOk` is the
outcome of the file creation); otherwise creates the file, writes the
header, allocates the buffer at capacity `cap`, spawns the writer thread and
transitions to `Running`.  Returns 0 on success, -1 on failure. -/
def start_log_manager (s : log_manager_state) (fileOk : Bool) (cap : Nat) :
    Int × log_manager_state :=
  if s.status = .Running ∨ s.status = .Draining then (-1, s)
  else if fileOk = false then (-1, { s with status := .Failed })
  else (0, { status := .Running, buffer := [], capacity := cap
           , file_rows := [], file_open := true, dropped := 0 })

/-- Modelled from the spec: `print_entry` — a stateless formatted dump of one
entry to the console; succeeds (0) unless the console stream faults (-1). -/
def print_entry (consoleOk : Bool) (_entry : log_entry_t) : Int :=
  if consoleOk then 0 else -1

/-- Modelled from the spec: `add_log_entry` — the sole producer-facing write
path.  Fails with `NotRunning` when the state is not `Running`; when the
buffer is at capacity it rejects the entry immediately, counts it in the
dropped-entry counter, and returns -1; otherwise it enqueues at the tail of
the FIFO and returns 0. -/
def add_log_entry (s : log_manager_state) (new_entry : log_entry_t) :
    Int × log_manager_state :=
  if s.status = .Running then
    if s.buffer.length ≥ s.capacity then
      (-1, { s with dropped := s.dropped + 1 })
    else
      (0, { s with buffer := s.buffer ++ [new_entry] })
  else (-1, s)

/-- Submit a whole list of entries in order; collects the per-call results. -/
def submit_all (s : log_manager_state) (es : List log_entry_t) :
    List Int × log_manager_state :=
  match es with
  | [] => ([], s)
  | e :: rest =>
      let r := add_log_entry s e
      let rs := submit_all r.2 rest
      (r.1 :: rs.1, rs.2)

/-- Modelled from the spec: one cycle of the writer thread while data is
available — dequeue the oldest buffered entry and append its formatted row
to the open file. -/
def writer_step (s : log_manager_state) : log_manager_state :=
  match s.buffer with
  | [] => s
  | e :: rest => { s with buffer := rest, file_rows := s.file_rows ++ [e] }

/-- Modelled from the spec: the writer thread draining the buffer to empty,
oldest entry first. -/
def writer_drain (s : log_manager_state) : log_manager_state :=
  match h : s.buffer with
  | [] => s
  | e :: rest =>
      writer_drain { s with buffer := rest, file_rows := s.file_rows ++ [e] }
termination_by s.buffer.length
decreasing_by simp [h]

/-- Modelled from the spec: `join_log_manager_thread` — shutdown with a
timeout.  `budget` abstracts the number of entries the writer thread manages
to persist before the timeout elapses.  If the buffer drains within the
budget, every buffered entry is written, the file is closed and the state
becomes `Stopped` (returns 0 and 0 lost entries); otherwise the writer is
forced to stop after `budget` entries, the file is closed as-is, the state
becomes `Failed`, and the count of lost (still queued) entries is reported
alongside the -1 result. -/
def join_log_manager_thread (s : log_manager_state) (budget : Nat) :
    Int × Nat × log_manager_state :=
  if s.status = .Running then
    if s.buffer.length ≤ budget then
      let s' := writer_drain { s with status := .Draining }
      (0, 0, { s' with status := .Stopped, file_open := false })
    else
      (-1, s.buffer.length - budget,
        { s with status := .Failed, file_open := false
               , buffer := s.buffer.drop budget
               , file_rows := s.file_rows ++ s.buffer.take budget })
  else (-1, 0, s)

/- helper lemmas about the log manager model -/

theorem writer_drain_aux (b : List log_entry_t) :
    ∀ s : log_manager_state, s.buffer = b →
      writer_drain s = { s with buffer := [], file_rows := s.file_rows ++ b } := by
  induction b with
  | nil =>
      intro s hb
      rw [writer_drain.eq_def]
      split
      · cases s; simp_all
      · simp_all
  | cons e rest ih =>
      intro s hb
      rw [writer_drain.eq_def]
      split
      · simp_all
      · rename_i e' rest' heq
        rw [hb] at heq
        injection heq with he hrest
        subst he; subst hrest
        rw [ih { s with buffer := rest, file_rows := s.file_rows ++ [e] } rfl]
        simp

/-- Draining writes the whole buffer, in order, after the rows already in
the file. -/
theorem writer_drain_eq (s : log_manager_state) :
    writer_drain s = { s with buffer := [], file_rows := s.file_rows ++ s.buffer } :=
  writer_drain_aux s.buffer s rfl

theorem submit_all_ok (es : List log_entry_t) :
    ∀ s : log_manager_state, s.status = .Running →
      s.buffer.length + es.length ≤ s.capacity →
      (∀ r ∈ (submit_all s es).1, r = 0) ∧
      (submit_all s es).2 = { s with buffer := s.buffer ++ es } := by
  induction es with
  | nil => intro s _ _; simp [submit_all]
  | cons e rest ih =>
      intro s hrun hcap
      simp only [List.length_cons] at hcap
      have hlt : s.buffer.length < s.capacity := by omega
      have hadd : add_log_entry s e = (0, { s with buffer := s.buffer ++ [e] }) := by
        unfold add_log_entry
        rw [hrun]
        simp [Nat.not_le.mpr hlt, hlt]
      have hrest := ih { s with buffer := s.buffer ++ [e] } (by simp [hrun])
        (by simp [List.length_append]; omega)
      unfold submit_all
      simp only [hadd]
      refine ⟨?_, ?_⟩
      · intro r hr
        simp at hr
        rcases hr with h | h
        · exact h
        · exact hrest.1 r h
      · rw [hrest.2]
        simp

/-- A concrete log entry used to instantiate the theorems. -/
def sample_entry (i : Nat) : log_entry_t :=
  { loop_index := i, last_step_us := 0
  , altitude := 0, roll := 0, pitch := 0, yaw := 0
  , u_X := 0, u_Y := 0, u_Z := 0, u_roll := 0, u_pitch := 0, u_yaw := 0
  , mot_1 := 0, mot_2 := 0, mot_3 := 0, mot_4 := 0, mot_5 := 0, mot_6 := 0
  , v_batt := 0 }

/- ### Claim theorems about the log manager -/

/-- C1: `LOG_TABLE` has exactly the 19 fields `loop_index, last_step_us,
altitude, roll, pitch, yaw, u_X, u_Y, u_Z, u_roll, u_pitch, u_yaw,
mot_1 .. mot_6, v_batt`, in that order, the first two as `uint64_t` and the
remaining seventeen as `double`, and the `log_entry_t` struct layout is
derived from this single ordered table. -/
theorem LOG_TABLE_schema :
    LOG_TABLE.map LogField.name =
      ["loop_index", "last_step_us", "altitude", "roll", "pitch", "yaw",
       "u_X", "u_Y", "u_Z", "u_roll", "u_pitch", "u_yaw",
       "mot_1", "mot_2", "mot_3", "mot_4", "mot_5", "mot_6", "v_batt"] ∧
    LOG_TABLE.length = 19 ∧
    (LOG_TABLE.take 2).map LogField.ctype = [CType.uint64_t, CType.uint64_t] ∧
    (LOG_TABLE.drop 2).map LogField.ctype = List.replicate 17 CType.double ∧
    log_entry_t_fields = LOG_TABLE.map (fun f => (f.ctype, f.name)) :=
  ⟨rfl, rfl, rfl, by decide, rfl⟩

/-- C2: for every sequence of successful `add_log_entry` calls made while the
logger is `Running` and the buffer never fills, every submit succeeds and the
data rows of the resulting CSV file (after the writer thread drains) are
exactly the submitted entries in submission order (FIFO). -/
theorem csv_rows_fifo (cap : Nat) (es : List log_entry_t) (h : es.length ≤ cap) :
    (∀ r ∈ (submit_all (start_log_manager log_manager_init true cap).2 es).1, r = 0) ∧
    (writer_drain (submit_all (start_log_manager log_manager_init true cap).2 es).2).file_rows
      = es := by
  have hstart : (start_log_manager log_manager_init true cap).2 =
      { status := .Running, buffer := [], capacity := cap
      , file_rows := [], file_open := true, dropped := 0 } := rfl
  rw [hstart]
  have hsub := submit_all_ok es
    { status := .Running, buffer := [], capacity := cap
    , file_rows := [], file_open := true, dropped := 0 }
    rfl (by simpa using h)
  refine ⟨hsub.1, ?_⟩
  rw [hsub.2, writer_drain_eq]
  simp

theorem csv_rows_fifo_witness :
    (∀ r ∈ (submit_all (start_log_manager log_manager_init true 2).2
              [sample_entry 1, sample_entry 2]).1, r = 0) ∧
    (writer_drain (submit_all (start_log_manager log_manager_init true 2).2
        [sample_entry 1, sample_entry 2]).2).file_rows
      = [sample_entry 1, sample_entry 2] :=
  csv_rows_fifo 2 [sample_entry 1, sample_entry 2] (by decide)

/-- C4: when the buffer is at capacity, `add_log_entry` fails immediately
with -1, the rejected entry is dropped (buffer and file unchanged, so no
buffered entry is overwritten, duplicated or reordered), and the
dropped-entry counter increases by exactly one. -/
theorem add_log_entry_buffer_full (s : log_manager_state) (e : log_entry_t)
    (h1 : s.status = .Running) (h2 : s.buffer.length = s.capacity) :
    add_log_entry s e = (-1, { s with dropped := s.dropped + 1 }) ∧
    (add_log_entry s e).2.buffer = s.buffer ∧
    (add_log_entry s e).2.file_rows = s.file_rows ∧
    (add_log_entry s e).2.dropped = s.dropped + 1 := by
  have heq : add_log_entry s e = (-1, { s with dropped := s.dropped + 1 }) := by
    unfold add_log_entry
    rw [h1]
    simp [h2]
  exact ⟨heq, by rw [heq], by rw [heq], by rw [heq]⟩

theorem add_log_entry_buffer_full_witness :
    add_log_entry
      { status := .Running, buffer := [sample_entry 1], capacity := 1
      , file_rows := [], file_open := true, dropped := 0 } (sample_entry 2)
    = (-1, { status := .Running, buffer := [sample_entry 1], capacity := 1
           , file_rows := [], file_open := true, dropped := 1 }) :=
  (add_log_entry_buffer_full
      { status := .Running, buffer := [sample_entry 1], capacity := 1
      , file_rows := [], file_open := true, dropped := 0 } (sample_entry 2)
      rfl (by decide)).1

/-- C5: shutdown from `Running`: if the writer drains within the timeout
budget the call returns 0 and every previously submitted entry is in the
file, the file is closed and the state is `Stopped`; if the timeout elapses
first it returns -1, the file is closed partially flushed, the state becomes
`Failed`, and the number of still-queued (lost) entries is reported. -/
theorem join_log_manager_thread_spec (s : log_manager_state) (budget : Nat)
    (h : s.status = .Running) :
    (s.buffer.length ≤ budget →
      join_log_manager_thread s budget =
        (0, 0,
          { s with
              status := .Stopped, file_open := false,
              buffer := [], file_rows := s.file_rows ++ s.buffer })) ∧
    (budget < s.buffer.length →
      join_log_manager_thread s budget =
        (-1, s.buffer.length - budget,
          { s with
              status := .Failed, file_open := false,
              buffer := s.buffer.drop budget,
              file_rows := s.file_rows ++ s.buffer.take budget })) := by
  unfold join_log_manager_thread
  rw [h]
  constructor
  · intro hb
    rw [if_pos rfl, if_pos hb, writer_drain_eq]
  · intro hb
    rw [if_pos rfl, if_neg (by omega)]

theorem join_log_manager_thread_spec_witness :
    join_log_manager_thread
      { status := .Running, buffer := [sample_entry 1, sample_entry 2]
      , capacity := 4, file_rows := [], file_open := true, dropped := 0 } 1
    = (-1, 1, { status := .Failed, buffer := [sample_entry 2], capacity := 4
              , file_rows := [sample_entry 1], file_open := false, dropped := 0 }) :=
  (join_log_manager_thread_spec
      { status := .Running, buffer := [sample_entry 1, sample_entry 2]
      , capacity := 4, file_rows := [], file_open := true, dropped := 0 } 1
      rfl).2 (by decide)

/-- C6: each producer-facing operation — `start_log_manager`,
`add_log_entry`, `print_entry`, `join_log_manager_thread` — returns exactly
0 on success and -1 on failure, never any other value. -/
theorem log_manager_api_returns_0_or_neg1 (s : log_manager_state)
    (fileOk : Bool) (cap : Nat) (e : log_entry_t) (consoleOk : Bool)
    (budget : Nat) :
    ((start_log_manager s fileOk cap).1 = 0 ∨ (start_log_manager s fileOk cap).1 = -1) ∧
    ((add_log_entry s e).1 = 0 ∨ (add_log_entry s e).1 = -1) ∧
    (print_entry consoleOk e = 0 ∨ print_entry consoleOk e = -1) ∧
    ((join_log_manager_thread s budget).1 = 0 ∨
      (join_log_manager_thread s budget).1 = -1) := by
  refine ⟨?_, ?_, ?_, ?_⟩
  · unfold start_log_manager
    repeat' split
    all_goals simp
  · unfold add_log_entry
    repeat' split
    all_goals simp
  · unfold print_entry
    split
    all_goals simp
  · unfold join_log_manager_thread
    repeat' split
    all_goals simp

/- ### Part 2: settings loader (src/settings.c) -/

/-- A json-c value, as distinguished by `json_object_is_type`. -/
inductive json_object
  | jbool (b : Bool)
  | jint (n : Int)
  | jdouble (x : Rat)
  | jstring (s : String)
  | jarray (xs : List json_object)
  | jobject (fields : List (String × json_object))

/-- Association-list lookup used by `jlookup`. -/
def lookupField : List (String × json_object) → String → Option json_object
  | [], _ => none
  | (k, v) :: rest, key => if k = key then some v else lookupField rest key

/-- `json_object_object_get_ex`: fetch a key from a json object; yields
`none` (the C function returns 0) when the key is absent or the value is not
an object. -/
def jlookup (j : json_object) (key : String) : Option json_object :=
  match j with
  | .jobject fields => lookupField fields key
  | _ => none

/-- Rotor layouts named in `__parse_layout`. -/
inductive layout_t
  | LAYOUT_6DOF_ROTORBITS
  | LAYOUT_4X
  | LAYOUT_4PLUS
  | LAYOUT_6X
  | LAYOUT_8X
deriving DecidableEq

/-- Thrust maps named in `__parse_thrust_map`. -/
inductive thrust_map_t
  | MN1806_1400KV_4S
  | F20_2300KV_2S
  | RX2206_4S
deriving DecidableEq

/-- Flight modes named in `__parse_flight_mode`. -/
inductive flight_mode_t
  | TEST_BENCH_4DOF
  | TEST_BENCH_6DOF
  | DIRECT_THROTTLE_4DOF
  | DIRECT_THROTTLE_6DOF
  | ALT_HOLD_4DOF
  | ALT_HOLD_6DOF
deriving DecidableEq

/-- DSM kill modes named in `__parse_kill_mode`. -/
inductive dsm_kill_t
  | DSM_KILL_DEDICATED_SWITCH
  | DSM_KILL_NEGATIVE_THROTTLE
deriving DecidableEq

/-- The librobotcontrol discrete filter, reduced to the data the settings
code stores into it (numerator, denominator, sample time). -/
structure rc_filter_t where
  num : List Rat
  den : List Rat
  dt : Rat
deriving DecidableEq

/-- `rc_filter_empty()` / the state after `rc_filter_free`. -/
def rc_filter_empty : rc_filter_t := ⟨[], [], 0⟩

/-- The fields of `settings_t` that `settings_load_from_file` writes
(`settings.h` is not among the sources; the field set is read off the
assignments in `settings.c`). -/
structure settings_t where
  layout : layout_t
  num_rotors : Int
  thrust_map : thrust_map_t
  v_nominal : Rat
  enable_logging : Bool
  flight_mode_1 : flight_mode_t
  flight_mode_2 : flight_mode_t
  flight_mode_3 : flight_mode_t
  num_dsm_modes : Int
  dsm_thr_ch : Int
  dsm_thr_pol : Int
  dsm_roll_ch : Int
  dsm_roll_pol : Int
  dsm_pitch_ch : Int
  dsm_pitch_pol : Int
  dsm_yaw_ch : Int
  dsm_yaw_pol : Int
  dsm_mode_ch : Int
  dsm_mode_pol : Int
  dsm_kill_mode : dsm_kill_t
  dsm_kill_ch : Int
  dsm_kill_pol : Int
  feedback_hz : Int
  printf_arm : Bool
  printf_altitude : Bool
  printf_rpy : Bool
  printf_sticks : Bool
  printf_setpoint : Bool
  printf_u : Bool
  printf_motors : Bool
  printf_mode : Bool
deriving DecidableEq

/-- The zero-initialised file-scope `settings_t settings;` global. -/
def settings_zero : settings_t :=
  { layout := .LAYOUT_6DOF_ROTORBITS, num_rotors := 0
  , thrust_map := .MN1806_1400KV_4S, v_nominal := 0
  , enable_logging := false
  , flight_mode_1 := .TEST_BENCH_4DOF, flight_mode_2 := .TEST_BENCH_4DOF
  , flight_mode_3 := .TEST_BENCH_4DOF
  , num_dsm_modes := 0
  , dsm_thr_ch := 0, dsm_thr_pol := 0, dsm_roll_ch := 0, dsm_roll_pol := 0
  , dsm_pitch_ch := 0, dsm_pitch_pol := 0, dsm_yaw_ch := 0, dsm_yaw_pol := 0
  , dsm_mode_ch := 0, dsm_mode_pol := 0
  , dsm_kill_mode := .DSM_KILL_DEDICATED_SWITCH, dsm_kill_ch := 0
  , dsm_kill_pol := 0
  , feedback_hz := 0
  , printf_arm := false, printf_altitude := false, printf_rpy := false
  , printf_sticks := false, printf_setpoint := false, printf_u := false
  , printf_motors := false, printf_mode := false }

/-- The mutable state the parsing pass writes: the `settings` global and the
four file-scope static controller filters. -/
structure PState where
  settings : settings_t
  roll_controller : rc_filter_t
  pitch_controller : rc_filter_t
  yaw_controller : rc_filter_t
  altitude_controller : rc_filter_t
deriving DecidableEq

/-- Apply an update to the `settings` global inside a `PState`. -/
def updS (f : settings_t → settings_t) (p : PState) : PState :=
  { p with settings := f p.settings }

/-- The two librobotcontrol constructors the controller parser calls; each
may fail (`none`), which `__parse_controller` turns into -1. -/
structure FilterLib where
  rc_filter_c2d_tustin : Rat → List Rat → List Rat → Rat → Option rc_filter_t
  rc_filter_alloc : List Rat → List Rat → Rat → Option rc_filter_t

/-- The `PARSE_BOOL(name)` macro: missing key or non-boolean value aborts
the load (`.error` carries the settings state at the failure point);
otherwise the boolean is stored. -/
def PARSE_BOOL (j : json_object) (key : String)
    (upd : Bool → PState → PState) (p : PState) : Except PState PState :=
  match jlookup j key with
  | none => .error p
  | some v =>
      match v with
      | .jbool b => .ok (upd b p)
      | _ => .error p

/-- The `PARSE_INT(name)` macro. -/
def PARSE_INT (j : json_object) (key : String)
    (upd : Int → PState → PState) (p : PState) : Except PState PState :=
  match jlookup j key with
  | none => .error p
  | some v =>
      match v with
      | .jint n => .ok (upd n p)
      | _ => .error p

/-- The `PARSE_INT_MIN_MAX(name,min,max)` macro: note the value is stored
into `settings` before the bound check, as in the source. -/
def PARSE_INT_MIN_MAX (j : json_object) (key : String) (lo hi : Int)
    (upd : Int → PState → PState) (p : PState) : Except PState PState :=
  match jlookup j key with
  | none => .error p
  | some v =>
      match v with
      | .jint n =>
          let p' := upd n p
          if n < lo ∨ n > hi then .error p' else .ok p'
      | _ => .error p

/-- The `PARSE_POLARITY(name)` macro: stored, then required to be ±1. -/
def PARSE_POLARITY (j : json_object) (key : String)
    (upd : Int → PState → PState) (p : PState) : Except PState PState :=
  match jlookup j key with
  | none => .error p
  | some v =>
      match v with
      | .jint n =>
          let p' := upd n p
          if n ≠ -1 ∧ n ≠ 1 then .error p' else .ok p'
      | _ => .error p

/-- `__parse_layout`: pulls the rotor layout string out of the json object
into `settings.layout` / `settings.num_rotors`. -/
def __parse_layout (j : json_object) (p : PState) : Except PState PState :=
  match jlookup j "layout" with
  | none => .error p
  | some v =>
    match v with
    | .jstring s =>
      if s = "LAYOUT_6DOF_ROTORBITS" then
        .ok (updS (fun st => { st with num_rotors := 6, layout := .LAYOUT_6DOF_ROTORBITS }) p)
      else if s = "LAYOUT_4X" then
        .ok (updS (fun st => { st with num_rotors := 4, layout := .LAYOUT_4X }) p)
      else if s = "LAYOUT_4PLUS" then
        .ok (updS (fun st => { st with num_rotors := 4, layout := .LAYOUT_4PLUS }) p)
      else if s = "LAYOUT_6X" then
        .ok (updS (fun st => { st with num_rotors := 6, layout := .LAYOUT_6X }) p)
      else if s = "LAYOUT_8X" then
        .ok (updS (fun st => { st with num_rotors := 8, layout := .LAYOUT_8X }) p)
      else .error p
    | _ => .error p

/-- `__parse_thrust_map`. -/
def __parse_thrust_map (j : json_object) (p : PState) : Except PState PState :=
  match jlookup j "thrust_map" with
  | none => .error p
  | some v =>
    match v with
    | .jstring s =>
      if s = "MN1806_1400KV_4S" then
        .ok (updS (fun st => { st with thrust_map := .MN1806_1400KV_4S }) p)
      else if s = "F20_2300KV_2S" then
        .ok (updS (fun st => { st with thrust_map := .F20_2300KV_2S }) p)
      else if s = "RX2206_4S" then
        .ok (updS (fun st => { st with thrust_map := .RX2206_4S }) p)
      else .error p
    | _ => .error p

/-- `PARSE_DOUBLE_MIN_MAX(v_nominal,7.0,18.0)`: requires a json double,
stores it, then bounds-checks the stored value. -/
def parse_v_nominal (j : json_object) (p : PState) : Except PState PState :=
  match jlookup j "v_nominal" with
  | none => .error p
  | some v =>
      match v with
      | .jdouble x =>
          let p' := updS (fun st => { st with v_nominal := x }) p
          if x < 7 ∨ x > 18 then .error p' else .ok p'
      | _ => .error p

/-- The inline `enable_logging` block of `settings_load_from_file`: missing
key or non-boolean aborts with -1, otherwise the boolean is stored. -/
def parse_enable_logging (j : json_object) (p : PState) : Except PState PState :=
  match jlookup j "enable_logging" with
  | none => .error p
  | some v =>
      match v with
      | .jbool b => .ok (updS (fun st => { st with enable_logging := b }) p)
      | _ => .error p

/-- `__parse_flight_mode`: string-to-enum translation of one flight mode. -/
def __parse_flight_mode (v : json_object) : Option flight_mode_t :=
  match v with
  | .jstring s =>
      if s = "TEST_BENCH_4DOF" then some .TEST_BENCH_4DOF
      else if s = "TEST_BENCH_6DOF" then some .TEST_BENCH_6DOF
      else if s = "DIRECT_THROTTLE_4DOF" then some .DIRECT_THROTTLE_4DOF
      else if s = "DIRECT_THROTTLE_6DOF" then some .DIRECT_THROTTLE_6DOF
      else if s = "ALT_HOLD_4DOF" then some .ALT_HOLD_4DOF
      else if s = "ALT_HOLD_6DOF" then some .ALT_HOLD_6DOF
      else none
  | _ => none

/-- One `flight_mode_N` block of `settings_load_from_file`: key lookup then
`__parse_flight_mode`. -/
def parse_flight_mode_slot (j : json_object) (key : String)
    (upd : flight_mode_t → PState → PState) (p : PState) : Except PState PState :=
  match jlookup j key with
  | none => .error p
  | some v =>
      match __parse_flight_mode v with
      | none => .error p
      | some m => .ok (upd m p)

/-- `__parse_kill_mode`: note the source maps both accepted strings to
`DSM_KILL_DEDICATED_SWITCH`. -/
def __parse_kill_mode (j : json_object) (p : PState) : Except PState PState :=
  match jlookup j "dsm_kill_mode" with
  | none => .error p
  | some v =>
    match v with
    | .jstring s =>
      if s = "DSM_KILL_DEDICATED_SWITCH" then
        .ok (updS (fun st => { st with dsm_kill_mode := .DSM_KILL_DEDICATED_SWITCH }) p)
      else if s = "DSM_KILL_NEGATIVE_THROTTLE" then
        .ok (updS (fun st => { st with dsm_kill_mode := .DSM_KILL_DEDICATED_SWITCH }) p)
      else .error p
    | _ => .error p

/-- The `feedback_hz` block: `PARSE_INT(feedback_hz)` followed by the
explicit 50/100/200 check on the stored value. -/
def parse_feedback_hz (j : json_object) (p : PState) : Except PState PState :=
  match jlookup j "feedback_hz" with
  | none => .error p
  | some v =>
      match v with
      | .jint n =>
          let p' := updS (fun st => { st with feedback_hz := n }) p
          if n ≠ 50 ∧ n ≠ 100 ∧ n ≠ 200 then .error p' else .ok p'
      | _ => .error p

/-- The element loop over a numerator/denominator array: every element must
be a json double. -/
def getDoubleArray : List json_object → Option (List Rat)
  | [] => some []
  | .jdouble x :: rest => (getDoubleArray rest).map (fun l => x :: l)
  | _ => none

/-- `__parse_controller`: gain must exist (its value is read but never used
to build the filter), numerator/denominator must be non-empty arrays of
doubles with `num_len ≤ den_len`, `CT_or_DT` selects
`rc_filter_c2d_tustin` (with a required double crossover frequency) or
`rc_filter_alloc`; `none` is the -1 outcome. -/
def __parse_controller (lib : FilterLib) (jc : json_object)
    (feedback_hz : Int) : Option rc_filter_t :=
  let dt : Rat := 1 / (feedback_hz : Rat)
  match jlookup jc "gain" with
  | none => none
  | some _ =>
    match jlookup jc "numerator" with
    | some (.jarray nxs) =>
      if nxs.length < 1 then none else
      match getDoubleArray nxs with
      | none => none
      | some num =>
        match jlookup jc "denominator" with
        | some (.jarray dxs) =>
          if dxs.length < 1 then none else
          match getDoubleArray dxs with
          | none => none
          | some den =>
            if nxs.length > dxs.length then none else
            match jlookup jc "CT_or_DT" with
            | some (.jstring s) =>
                if s = "CT" then
                  match jlookup jc "crossover_freq_rad_per_sec" with
                  | some (.jdouble w) => lib.rc_filter_c2d_tustin dt num den w
                  | some _ => none
                  | none => none
                else if s = "DT" then lib.rc_filter_alloc num den dt
                else none
            | some _ => none
            | none => none
        | some _ => none
        | none => none
    | some _ => none
    | none => none

/-- One `*_controller` block of `settings_load_from_file`: key lookup, then
`__parse_controller` into the corresponding static filter.  `clear` models
the `rc_filter_free` performed before parsing (so a failed parse leaves the
filter empty); `upd` stores the successfully constructed filter. -/
def parse_controller_slot (lib : FilterLib) (j : json_object) (key : String)
    (clear : PState → PState) (upd : rc_filter_t → PState → PState)
    (p : PState) : Except PState PState :=
  match jlookup j key with
  | none => .error p
  | some jc =>
      match __parse_controller lib jc p.settings.feedback_hz with
      | none => .error (clear p)
      | some f => .ok (upd f p)

/-- The sections of `settings_load_from_file` before the `enable_logging`
block, in source order: layout, thrust map, `v_nominal`. -/
def parse_head (j : json_object) (p : PState) : Except PState PState := do
  let p ← __parse_layout j p
  let p ← __parse_thrust_map j p
  parse_v_nominal j p

/-- The sections between `enable_logging` and `feedback_hz`, in source
order: the three flight modes, the DSM radio configuration and the kill
mode. -/
def parse_mid (j : json_object) (p : PState) : Except PState PState := do
  let p ← parse_flight_mode_slot j "flight_mode_1"
    (fun m => updS fun st => { st with flight_mode_1 := m }) p
  let p ← parse_flight_mode_slot j "flight_mode_2"
    (fun m => updS fun st => { st with flight_mode_2 := m }) p
  let p ← parse_flight_mode_slot j "flight_mode_3"
    (fun m => updS fun st => { st with flight_mode_3 := m }) p
  let p ← PARSE_INT_MIN_MAX j "num_dsm_modes" 1 3
    (fun n => updS fun st => { st with num_dsm_modes := n }) p
  let p ← PARSE_INT_MIN_MAX j "dsm_thr_ch" 1 9
    (fun n => updS fun st => { st with dsm_thr_ch := n }) p
  let p ← PARSE_POLARITY j "dsm_thr_pol"
    (fun n => updS fun st => { st with dsm_thr_pol := n }) p
  let p ← PARSE_INT_MIN_MAX j "dsm_roll_ch" 1 9
    (fun n => updS fun st => { st with dsm_roll_ch := n }) p
  let p ← PARSE_POLARITY j "dsm_roll_pol"
    (fun n => updS fun st => { st with dsm_roll_pol := n }) p
  let p ← PARSE_INT_MIN_MAX j "dsm_pitch_ch" 1 9
    (fun n => updS fun st => { st with dsm_pitch_ch := n }) p
  let p ← PARSE_POLARITY j "dsm_pitch_pol"
    (fun n => updS fun st => { st with dsm_pitch_pol := n }) p
  let p ← PARSE_INT_MIN_MAX j "dsm_yaw_ch" 1 9
    (fun n => updS fun st => { st with dsm_yaw_ch := n }) p
  let p ← PARSE_POLARITY j "dsm_yaw_pol"
    (fun n => updS fun st => { st with dsm_yaw_pol := n }) p
  let p ← PARSE_INT_MIN_MAX j "dsm_mode_ch" 1 9
    (fun n => updS fun st => { st with dsm_mode_ch := n }) p
  let p ← PARSE_POLARITY j "dsm_mode_pol"
    (fun n => updS fun st => { st with dsm_mode_pol := n }) p
  let p ← __parse_kill_mode j p
  let p ← PARSE_INT_MIN_MAX j "dsm_kill_ch" 1 9
    (fun n => updS fun st => { st with dsm_kill_ch := n }) p
  PARSE_POLARITY j "dsm_kill_pol"
    (fun n => updS fun st => { st with dsm_kill_pol := n }) p

/-- The sections after `feedback_hz`, in source order: the eight printf
options and the four controllers. -/
def parse_tail (lib : FilterLib) (j : json_object) (p : PState) :
    Except PState PState := do
  let p ← PARSE_BOOL j "printf_arm"
    (fun b => updS fun st => { st with printf_arm := b }) p
  let p ← PARSE_BOOL j "printf_altitude"
    (fun b => updS fun st => { st with printf_altitude := b }) p
  let p ← PARSE_BOOL j "printf_rpy"
    (fun b => updS fun st => { st with printf_rpy := b }) p
  let p ← PARSE_BOOL j "printf_sticks"
    (fun b => updS fun st => { st with printf_sticks := b }) p
  let p ← PARSE_BOOL j "printf_setpoint"
    (fun b => updS fun st => { st with printf_setpoint := b }) p
  let p ← PARSE_BOOL j "printf_u"
    (fun b => updS fun st => { st with printf_u := b }) p
  let p ← PARSE_BOOL j "printf_motors"
    (fun b => updS fun st => { st with printf_motors := b }) p
  let p ← PARSE_BOOL j "printf_mode"
    (fun b => updS fun st => { st with printf_mode := b }) p
  let p ← parse_controller_slot lib j "roll_controller"
    (fun q => { q with roll_controller := rc_filter_empty })
    (fun f q => { q with roll_controller := f }) p
  let p ← parse_controller_slot lib j "pitch_controller"
    (fun q => { q with pitch_controller := rc_filter_empty })
    (fun f q => { q with pitch_controller := f }) p
  let p ← parse_controller_slot lib j "yaw_controller"
    (fun q => { q with yaw_controller := rc_filter_empty })
    (fun f q => { q with yaw_controller := f }) p
  parse_controller_slot lib j "altitude_controller"
    (fun q => { q with altitude_controller := rc_filter_empty })
    (fun f q => { q with altitude_controller := f }) p

/-- The whole parsing pass of `settings_load_from_file`, in source order. -/
def parseAll (lib : FilterLib) (j : json_object) (p : PState) :
    Except PState PState := do
  let p ← parse_head j p
  let p ← parse_enable_logging j p
  let p ← parse_mid j p
  let p ← parse_feedback_hz j p
  parse_tail lib j p

/-- The three possible states of the settings file on disk: `access` fails
(absent), `json_object_from_file` fails (unreadable), or it parses to a
json value. -/
inductive SettingsFile
  | absent
  | unreadable
  | contents (j : json_object)

/-- The file-scope state of `settings.c`: the `jobj` json handle, the
`settings` global plus the four static filters, and `was_load_successful`. -/
structure SettingsModule where
  jobj : Option json_object
  st : PState
  was_load_successful : Bool

/-- The state of `settings.c` at program start: `jobj` NULL, `settings`
zero-initialised, filters empty, `was_load_successful = 0`. -/
def settings_module_init : SettingsModule :=
  { jobj := none
  , st := { settings := settings_zero
          , roll_controller := rc_filter_empty
          , pitch_controller := rc_filter_empty
          , yaw_controller := rc_filter_empty
          , altitude_controller := rc_filter_empty }
  , was_load_successful := false }

/-- `__write_settings_to_disk`, with the outcome of
`json_object_to_file_ext` supplied as `writeOk`: 0 on success, -1 on
failure. -/
def __write_settings_to_disk (writeOk : Bool) : Int :=
  if writeOk then 0 else -1

/-- Run the parsing pass and record its outcome the way
`settings_load_from_file` does: every early `return -1` leaves
`was_load_successful` at the 0 it was reset to on entry (and leaks `jobj`);
the success path frees `jobj`, sets `was_load_successful = 1` and
returns 0. -/
def runParse (lib : FilterLib) (j : json_object) (m : SettingsModule) :
    Int × SettingsModule :=
  match parseAll lib j m.st with
  | .error p => (-1, { jobj := some j, st := p, was_load_successful := false })
  | .ok p => (0, { jobj := none, st := p, was_load_successful := true })

/-- One default controller object of `__load_default_settings`: gain 1,
continuous-time with crossover `w`, numerator and denominator
`[0.1, 0.2, 0.3]`. -/
def default_controller_json (w : Rat) : json_object :=
  .jobject
    [ ("gain", .jdouble 1)
    , ("CT_or_DT", .jstring "CT")
    , ("crossover_freq_rad_per_sec", .jdouble w)
    , ("numerator", .jarray [.jdouble 0.1, .jdouble 0.2, .jdouble 0.3])
    , ("denominator", .jarray [.jdouble 0.1, .jdouble 0.2, .jdouble 0.3]) ]

/-- `__load_default_settings`: the default json object built in memory when
the settings file is missing, key by key in source order.  Note
`enable_logging` defaults to `FALSE`. -/
def __load_default_settings : json_object :=
  .jobject
    [ ("layout", .jstring "LAYOUT_6DOF_ROTORBITS")
    , ("thrust_map", .jstring "RX2206_4S")
    , ("orientation", .jstring "ORIENTATION_X_FORWARD")
    , ("v_nominal", .jdouble 7.4)
    , ("feedback_hz", .jint 100)
    , ("enable_logging", .jbool false)
    , ("num_dsm_modes", .jint 3)
    , ("flight_mode_1", .jstring "TEST_BENCH_4DOF")
    , ("flight_mode_2", .jstring "TEST_BENCH_6DOF")
    , ("flight_mode_3", .jstring "DIRECT_THROTTLE_4DOF")
    , ("dsm_thr_ch", .jint 1)
    , ("dsm_thr_pol", .jint 1)
    , ("dsm_roll_ch", .jint 2)
    , ("dsm_roll_pol", .jint 1)
    , ("dsm_pitch_ch", .jint 3)
    , ("dsm_pitch_pol", .jint 1)
    , ("dsm_yaw_ch", .jint 4)
    , ("dsm_yaw_pol", .jint 1)
    , ("dsm_mode_ch", .jint 5)
    , ("dsm_mode_pol", .jint 1)
    , ("dsm_kill_mode", .jstring "DSM_KILL_NEGATIVE_THROTTLE")
    , ("dsm_kill_ch", .jint 6)
    , ("dsm_kill_pol", .jint 1)
    , ("printf_arm", .jbool true)
    , ("printf_altitude", .jbool false)
    , ("printf_rpy", .jbool false)
    , ("printf_sticks", .jbool false)
    , ("printf_setpoint", .jbool true)
    , ("printf_u", .jbool false)
    , ("printf_motors", .jbool false)
    , ("printf_mode", .jbool true)
    , ("roll_controller", default_controller_json 6.283)
    , ("pitch_controller", default_controller_json 6.283)
    , ("yaw_controller", default_controller_json 3.141)
    , ("altitude_controller", default_controller_json 0.6283) ]

/-- `settings_load_from_file`.  `file` is the state of `SETTINGS_FILE` on
disk, `writeOk` the outcome of persisting the defaults, `lib` the behaviour
of the librobotcontrol filter constructors, `m` the module state before the
call.  Returns the C result (0 or -1) and the module state after. -/
def settings_load_from_file (lib : FilterLib) (file : SettingsFile)
    (writeOk : Bool) (m : SettingsModule) : Int × SettingsModule :=
  match file with
  | .absent =>
      -- the source reads `if(__write_settings_to_disk()!=0) -1;` — an
      -- expression statement, so the failure result is discarded and
      -- parsing proceeds on the in-memory defaults either way
      let _ := __write_settings_to_disk writeOk
      runParse lib __load_default_settings m
  | .unreadable => (-1, { m with jobj := none, was_load_successful := false })
  | .contents j => runParse lib j m

/-- `settings_get`: refuses (-1, output untouched) until a load has
succeeded, then copies the `settings` global to the caller. -/
def settings_get (m : SettingsModule) (set : settings_t) : Int × settings_t :=
  if m.was_load_successful = false then (-1, set)
  else (0, m.st.settings)

/-- `settings_get_roll_controller`. -/
def settings_get_roll_controller (m : SettingsModule) (ctrl : rc_filter_t) :
    Int × rc_filter_t :=
  if m.was_load_successful = false then (-1, ctrl)
  else (0, m.st.roll_controller)

/-- `settings_get_pitch_controller`. -/
def settings_get_pitch_controller (m : SettingsModule) (ctrl : rc_filter_t) :
    Int × rc_filter_t :=
  if m.was_load_successful = false then (-1, ctrl)
  else (0, m.st.pitch_controller)

/-- `settings_get_yaw_controller`. -/
def settings_get_yaw_controller (m : SettingsModule) (ctrl : rc_filter_t) :
    Int × rc_filter_t :=
  if m.was_load_successful = false then (-1, ctrl)
  else (0, m.st.yaw_controller)

/-- `settings_get_altitude_controller`. -/
def settings_get_altitude_controller (m : SettingsModule) (ctrl : rc_filter_t) :
    Int × rc_filter_t :=
  if m.was_load_successful = false then (-1, ctrl)
  else (0, m.st.altitude_controller)

/-- A filter library whose constructors always succeed, used to instantiate
the theorems at concrete inputs. -/
def lib_always_ok : FilterLib :=
  { rc_filter_c2d_tustin := fun _ _ _ _ => some rc_filter_empty
  , rc_filter_alloc := fun num den dt => some ⟨num, den, dt⟩ }

/-- A well-formed concrete settings file (integer-valued doubles keep every
comparison computable) used to instantiate the theorems. -/
def sample_controller_json : json_object :=
  .jobject
    [ ("gain", .jdouble 1)
    , ("CT_or_DT", .jstring "DT")
    , ("numerator", .jarray [.jdouble 1])
    , ("denominator", .jarray [.jdouble 1]) ]

/-- A complete settings file accepted by every section of the parser. -/
def sample_settings_json : json_object :=
  .jobject
    [ ("layout", .jstring "LAYOUT_4X")
    , ("thrust_map", .jstring "RX2206_4S")
    , ("v_nominal", .jdouble 8)
    , ("enable_logging", .jbool true)
    , ("flight_mode_1", .jstring "TEST_BENCH_4DOF")
    , ("flight_mode_2", .jstring "TEST_BENCH_6DOF")
    , ("flight_mode_3", .jstring "ALT_HOLD_4DOF")
    , ("num_dsm_modes", .jint 3)
    , ("dsm_thr_ch", .jint 1)
    , ("dsm_thr_pol", .jint 1)
    , ("dsm_roll_ch", .jint 2)
    , ("dsm_roll_pol", .jint 1)
    , ("dsm_pitch_ch", .jint 3)
    , ("dsm_pitch_pol", .jint 1)
    , ("dsm_yaw_ch", .jint 4)
    , ("dsm_yaw_pol", .jint 1)
    , ("dsm_mode_ch", .jint 5)
    , ("dsm_mode_pol", .jint 1)
    , ("dsm_kill_mode", .jstring "DSM_KILL_DEDICATED_SWITCH")
    , ("dsm_kill_ch", .jint 6)
    , ("dsm_kill_pol", .jint 1)
    , ("feedback_hz", .jint 200)
    , ("printf_arm", .jbool true)
    , ("printf_altitude", .jbool false)
    , ("printf_rpy", .jbool false)
    , ("printf_sticks", .jbool false)
    , ("printf_setpoint", .jbool true)
    , ("printf_u", .jbool false)
    , ("printf_motors", .jbool false)
    , ("printf_mode", .jbool true)
    , ("roll_controller", sample_controller_json)
    , ("pitch_controller", sample_controller_json)
    , ("yaw_controller", sample_controller_json)
    , ("altitude_controller", sample_controller_json) ]

/-- The json handle loaded by the time parsing starts: the on-disk contents
when the file is readable, the in-memory defaults when it is absent. -/
def loaded_json : SettingsFile → Option json_object
  | .absent => some __load_default_settings
  | .unreadable => none
  | .contents j => some j

/- ### Proof apparatus for the parsing chain -/

theorem except_ok_bind {ε α β : Type} (a : α) (f : α → Except ε β) :
    (Except.ok a >>= f : Except ε β) = f a := rfl

theorem except_error_bind {ε α β : Type} (e : ε) (f : α → Except ε β) :
    (Except.error e >>= f : Except ε β) = Except.error e := rfl

theorem except_bind_ok {ε α β : Type} (x : Except ε α) (f : α → Except ε β)
    (b : β) :
    (x >>= f = Except.ok b) ↔ ∃ a, x = Except.ok a ∧ f a = Except.ok b := by
  cases x with
  | error e => simp [except_error_bind]
  | ok a => simp [except_ok_bind]

/-- The state a parsing step leaves behind, whether it aborted or not. -/
def outState {σ : Type} : Except σ σ → σ
  | .ok s => s
  | .error s => s

/-- `f` leaves the projection `P` of the state unchanged on both its success
and its abort path. -/
def preservesF {σ α : Type} (f : σ → Except σ σ) (P : σ → α) : Prop :=
  ∀ s, P (outState (f s)) = P s

theorem preservesF_bind {σ α : Type} (P : σ → α) (f g : σ → Except σ σ)
    (hf : preservesF f P) (hg : preservesF g P) :
    preservesF (fun s => f s >>= g) P := by
  intro s
  have h1 := hf s
  cases hfs : f s with
  | error e =>
      rw [hfs] at h1
      simpa [except_error_bind, hfs, outState] using h1
  | ok a =>
      rw [hfs] at h1
      simp only [outState] at h1
      have h2 := hg a
      simp only [except_ok_bind, hfs]
      rw [h2, h1]

theorem preservesF_PARSE_BOOL {α : Type} (j : json_object) (key : String)
    (upd : Bool → PState → PState) (P : PState → α)
    (h : ∀ b p, P (upd b p) = P p) : preservesF (PARSE_BOOL j key upd) P := by
  intro p
  unfold PARSE_BOOL
  cases jlookup j key with
  | none => simp [outState]
  | some v => cases v <;> simp [outState, h]

theorem preservesF_PARSE_INT_MIN_MAX {α : Type} (j : json_object)
    (key : String) (lo hi : Int) (upd : Int → PState → PState)
    (P : PState → α) (h : ∀ n p, P (upd n p) = P p) :
    preservesF (PARSE_INT_MIN_MAX j key lo hi upd) P := by
  intro p
  unfold PARSE_INT_MIN_MAX
  cases jlookup j key with
  | none => simp [outState]
  | some v =>
      cases v <;> try simp [outState]
      case jint n =>
        by_cases hc : n < lo ∨ n > hi
        · simp [hc, outState, h]
        · simp [hc, outState, h]

theorem preservesF_PARSE_POLARITY {α : Type} (j : json_object) (key : String)
    (upd : Int → PState → PState) (P : PState → α)
    (h : ∀ n p, P (upd n p) = P p) :
    preservesF (PARSE_POLARITY j key upd) P := by
  intro p
  unfold PARSE_POLARITY
  cases jlookup j key with
  | none => simp [outState]
  | some v =>
      cases v <;> try simp [outState]
      case jint n =>
        by_cases hc : n ≠ -1 ∧ n ≠ 1
        · simp [hc, outState, h]
        · simp [hc, outState, h]

theorem preservesF_flight_slot {α : Type} (j : json_object) (key : String)
    (upd : flight_mode_t → PState → PState) (P : PState → α)
    (h : ∀ m p, P (upd m p) = P p) :
    preservesF (parse_flight_mode_slot j key upd) P := by
  intro p
  unfold parse_flight_mode_slot
  cases jlookup j key with
  | none => simp [outState]
  | some v =>
      rcases hfm : __parse_flight_mode v with _ | m <;> simp [hfm, outState, h]

theorem preservesF_kill_mode {α : Type} (j : json_object) (P : PState → α)
    (h : ∀ p, P (updS (fun st =>
      { st with dsm_kill_mode := dsm_kill_t.DSM_KILL_DEDICATED_SWITCH }) p) = P p) :
    preservesF (__parse_kill_mode j) P := by
  intro p
  unfold __parse_kill_mode
  cases jlookup j "dsm_kill_mode" with
  | none => simp [outState]
  | some v =>
      cases v <;> try simp [outState]
      case jstring s =>
        by_cases h1 : s = "DSM_KILL_DEDICATED_SWITCH"
        · simp [h1, outState, h]
        · by_cases h2 : s = "DSM_KILL_NEGATIVE_THROTTLE"
          · simp [h1, h2, outState, h]
          · simp [h1, h2, outState]

theorem preservesF_parse_feedback {α : Type} (j : json_object)
    (P : PState → α)
    (h : ∀ (n : Int) p, P (updS (fun st => { st with feedback_hz := n }) p) = P p) :
    preservesF (parse_feedback_hz j) P := by
  intro p
  unfold parse_feedback_hz
  cases jlookup j "feedback_hz" with
  | none => simp [outState]
  | some v =>
      cases v <;> try simp [outState]
      case jint n =>
        by_cases hc : n ≠ 50 ∧ n ≠ 100 ∧ n ≠ 200
        · simp [hc, outState, h]
        · simp [hc, outState, h]

theorem preservesF_controller_slot {α : Type} (lib : FilterLib)
    (j : json_object) (key : String) (clear : PState → PState)
    (upd : rc_filter_t → PState → PState) (P : PState → α)
    (hc : ∀ p, P (clear p) = P p) (hu : ∀ f p, P (upd f p) = P p) :
    preservesF (parse_controller_slot lib j key clear upd) P := by
  intro p
  unfold parse_controller_slot
  cases jlookup j key with
  | none => simp [outState]
  | some jc =>
      rcases hpc : __parse_controller lib jc p.settings.feedback_hz with _ | f <;>
        simp [hpc, outState, hc, hu]

theorem parse_mid_preserves_enable (j : json_object) :
    preservesF (parse_mid j) (fun p => p.settings.enable_logging) := by
  unfold parse_mid
  repeat' apply preservesF_bind
  all_goals
    first
    | exact preservesF_flight_slot _ _ _ _ (fun m p => rfl)
    | exact preservesF_PARSE_INT_MIN_MAX _ _ _ _ _ _ (fun n p => rfl)
    | exact preservesF_PARSE_POLARITY _ _ _ _ (fun n p => rfl)
    | exact preservesF_kill_mode _ _ (fun p => rfl)

theorem parse_feedback_preserves_enable (j : json_object) :
    preservesF (parse_feedback_hz j) (fun p => p.settings.enable_logging) :=
  preservesF_parse_feedback j _ (fun _ _ => rfl)

theorem parse_tail_preserves_enable (lib : FilterLib) (j : json_object) :
    preservesF (parse_tail lib j) (fun p => p.settings.enable_logging) := by
  unfold parse_tail
  repeat' apply preservesF_bind
  all_goals
    first
    | exact preservesF_PARSE_BOOL _ _ _ _ (fun b p => rfl)
    | exact preservesF_controller_slot _ _ _ _ _ _ (fun p => rfl) (fun f p => rfl)

theorem parse_tail_preserves_feedback (lib : FilterLib) (j : json_object) :
    preservesF (parse_tail lib j) (fun p => p.settings.feedback_hz) := by
  unfold parse_tail
  repeat' apply preservesF_bind
  all_goals
    first
    | exact preservesF_PARSE_BOOL _ _ _ _ (fun b p => rfl)
    | exact preservesF_controller_slot _ _ _ _ _ _ (fun p => rfl) (fun f p => rfl)

/- step inversion lemmas -/

theorem parse_enable_logging_ok {j : json_object} {p p' : PState}
    (h : parse_enable_logging j p = .ok p') :
    ∃ b, jlookup j "enable_logging" = some (.jbool b) ∧
      p' = updS (fun st => { st with enable_logging := b }) p := by
  unfold parse_enable_logging at h
  cases hl : jlookup j "enable_logging" with
  | none => rw [hl] at h; simp at h
  | some v =>
      rw [hl] at h
      cases v with
      | jbool b =>
          refine ⟨b, rfl, ?_⟩
          injection h with h'
          exact h'.symm
      | jint n => simp at h
      | jdouble x => simp at h
      | jstring s => simp at h
      | jarray xs => simp at h
      | jobject fs => simp at h

theorem parse_feedback_hz_ok {j : json_object} {p p' : PState}
    (h : parse_feedback_hz j p = .ok p') :
    ∃ n, jlookup j "feedback_hz" = some (.jint n) ∧
      (n = 50 ∨ n = 100 ∨ n = 200) ∧
      p' = updS (fun st => { st with feedback_hz := n }) p := by
  unfold parse_feedback_hz at h
  cases hl : jlookup j "feedback_hz" with
  | none => rw [hl] at h; simp at h
  | some v =>
      rw [hl] at h
      cases v with
      | jint n =>
          simp only [ne_eq] at h
          split at h
          · simp at h
          · rename_i hc
            refine ⟨n, rfl, by tauto, ?_⟩
            injection h with h'
            exact h'.symm
      | jbool b => simp at h
      | jdouble x => simp at h
      | jstring s => simp at h
      | jarray xs => simp at h
      | jobject fs => simp at h

/-- The module state after `runParse` is the state the parsing pass left
behind, successful or not. -/
theorem runParse_st (lib : FilterLib) (j : json_object) (m : SettingsModule) :
    (runParse lib j m).2.st = outState (parseAll lib j m.st) := by
  unfold runParse
  cases parseAll lib j m.st <;> simp [outState]

theorem runParse_result (lib : FilterLib) (j : json_object)
    (m : SettingsModule) :
    (runParse lib j m).1 = 0 ∨ (runParse lib j m).1 = -1 := by
  unfold runParse
  cases parseAll lib j m.st <;> simp

theorem runParse_ok {lib : FilterLib} {j : json_object} {m : SettingsModule}
    (h : (runParse lib j m).1 = 0) :
    ∃ p, parseAll lib j m.st = .ok p ∧ (runParse lib j m).2.st = p := by
  cases hpa : parseAll lib j m.st with
  | error p =>
      exfalso
      unfold runParse at h
      rw [hpa] at h
      simp at h
  | ok p =>
      refine ⟨p, rfl, ?_⟩
      unfold runParse
      rw [hpa]

theorem runParse_flag (lib : FilterLib) (j : json_object) (m : SettingsModule) :
    (runParse lib j m).2.was_load_successful = true ↔ (runParse lib j m).1 = 0 := by
  unfold runParse
  cases parseAll lib j m.st <;> simp

theorem runParse_feedback_ok {lib : FilterLib} {j : json_object}
    {m : SettingsModule} (h : (runParse lib j m).1 = 0) :
    ∃ n, jlookup j "feedback_hz" = some (.jint n) ∧
      (n = 50 ∨ n = 100 ∨ n = 200) ∧
      (runParse lib j m).2.st.settings.feedback_hz = n := by
  obtain ⟨pfin, hpa, hst⟩ := runParse_ok h
  unfold parseAll at hpa
  simp only [except_bind_ok] at hpa
  obtain ⟨p1, h1, p2, h2, p3, h3, p4, h4, h5⟩ := hpa
  obtain ⟨n, hn, hmem, hp4⟩ := parse_feedback_hz_ok h4
  subst hp4
  have hpres := parse_tail_preserves_feedback lib j
    (updS (fun st => { st with feedback_hz := n }) p3)
  rw [h5] at hpres
  simp only [outState] at hpres
  refine ⟨n, hn, hmem, ?_⟩
  rw [hst, hpres]
  rfl

theorem runParse_neg_flag {lib : FilterLib} {j : json_object}
    {m : SettingsModule} (h : (runParse lib j m).1 = -1) :
    (runParse lib j m).2.was_load_successful = false := by
  cases hf : (runParse lib j m).2.was_load_successful
  · rfl
  · exfalso
    have h0 := (runParse_flag lib j m).mp hf
    rw [h0] at h
    exact absurd h (by decide)

/- ### Claim theorems about the settings loader -/

/-- A settings file whose `enable_logging` key is a valid boolean but whose
`layout` section is missing. -/
def c7_file : json_object := .jobject [("enable_logging", .jbool true)]

/-- C7 counterexample: a settings file with a present, boolean
`enable_logging` (true) on which `settings_load_from_file` returns -1
without storing the value — `settings.enable_logging` stays false — because
an earlier section (`layout`) fails first.  So "otherwise stores the file's
boolean value into settings.enable_logging" is false as stated. -/
theorem settings_load_enable_logging_counterexample :
    jlookup c7_file "enable_logging" = some (.jbool true) ∧
    (settings_load_from_file lib_always_ok (.contents c7_file) true
        settings_module_init).1 = -1 ∧
    (settings_load_from_file lib_always_ok (.contents c7_file) true
        settings_module_init).2.st.settings.enable_logging = false :=
  ⟨rfl, by decide, by decide⟩

/-- C7 (amended): `settings_load_from_file` returns -1 whenever the
`enable_logging` key is absent or not a boolean; when every section before
`enable_logging` parses successfully, the file's boolean value is stored in
`settings.enable_logging` (even if a later section fails); and on a load
that returns 0, `settings.feedback_hz` equals the file's `feedback_hz`
value. -/
theorem settings_load_enable_logging (lib : FilterLib) (j : json_object)
    (w : Bool) (m : SettingsModule) :
    ((∀ b, jlookup j "enable_logging" ≠ some (.jbool b)) →
      (settings_load_from_file lib (.contents j) w m).1 = -1) ∧
    (∀ p1 b, parse_head j m.st = .ok p1 →
      jlookup j "enable_logging" = some (.jbool b) →
      (settings_load_from_file lib (.contents j) w m).2.st.settings.enable_logging = b) ∧
    ((settings_load_from_file lib (.contents j) w m).1 = 0 →
      ∀ n, jlookup j "feedback_hz" = some (.jint n) →
      (settings_load_from_file lib (.contents j) w m).2.st.settings.feedback_hz = n) := by
  have hload : settings_load_from_file lib (.contents j) w m = runParse lib j m := rfl
  refine ⟨?_, ?_, ?_⟩
  · intro habs
    rw [hload]
    unfold runParse
    cases hpa : parseAll lib j m.st with
    | error p => rfl
    | ok p =>
        exfalso
        unfold parseAll at hpa
        simp only [except_bind_ok] at hpa
        obtain ⟨p1, h1, p2, h2, p3, h3, p4, h4, h5⟩ := hpa
        obtain ⟨b, hb, -⟩ := parse_enable_logging_ok h2
        exact habs b hb
  · intro p1 b hhead hb
    rw [hload, runParse_st]
    have he : parse_enable_logging j p1 =
        .ok (updS (fun st => { st with enable_logging := b }) p1) := by
      unfold parse_enable_logging
      rw [hb]
    have hA : parseAll lib j m.st =
        (parse_mid j (updS (fun st => { st with enable_logging := b }) p1) >>= fun p =>
          parse_feedback_hz j p >>= fun p => parse_tail lib j p) := by
      unfold parseAll
      rw [hhead]
      simp only [except_ok_bind]
      rw [he]
      simp only [except_ok_bind]
    rw [hA]
    have hpres : preservesF
        (fun p => parse_mid j p >>= fun p =>
          parse_feedback_hz j p >>= fun p => parse_tail lib j p)
        (fun p => p.settings.enable_logging) :=
      preservesF_bind _ _ _ (parse_mid_preserves_enable j)
        (preservesF_bind _ _ _ (parse_feedback_preserves_enable j)
          (parse_tail_preserves_enable lib j))
    exact hpres (updS (fun st => { st with enable_logging := b }) p1)
  · intro hres n hn
    rw [hload] at hres ⊢
    obtain ⟨n', hn', hmem, hfe⟩ := runParse_feedback_ok hres
    rw [hn] at hn'
    injection hn' with hj
    injection hj with hnn
    rw [hfe, hnn]

/-- C8: `settings_load_from_file` returns only 0 or -1; whenever it returns
-1 the load is not marked successful; and whenever it returns 0 the loaded
json's `feedback_hz` is an integer equal to 50, 100 or 200 and
`settings.feedback_hz` equals that value. -/
theorem settings_load_feedback_hz (lib : FilterLib) (file : SettingsFile)
    (w : Bool) (m : SettingsModule) :
    ((settings_load_from_file lib file w m).1 = 0 ∨
      (settings_load_from_file lib file w m).1 = -1) ∧
    ((settings_load_from_file lib file w m).1 = -1 →
      (settings_load_from_file lib file w m).2.was_load_successful = false) ∧
    ((settings_load_from_file lib file w m).1 = 0 →
      ∃ j n, loaded_json file = some j ∧
        jlookup j "feedback_hz" = some (.jint n) ∧
        (n = 50 ∨ n = 100 ∨ n = 200) ∧
        (settings_load_from_file lib file w m).2.st.settings.feedback_hz = n) := by
  cases file with
  | unreadable =>
      refine ⟨Or.inr rfl, fun _ => rfl, fun h0 => ?_⟩
      exfalso
      simp [settings_load_from_file] at h0
  | absent =>
      refine ⟨runParse_result lib __load_default_settings m, ?_, ?_⟩
      · intro hm1
        exact runParse_neg_flag hm1
      · intro h0
        obtain ⟨n, hn, hmem, hfe⟩ := runParse_feedback_ok h0
        exact ⟨__load_default_settings, n, rfl, hn, hmem, hfe⟩
  | contents j =>
      refine ⟨runParse_result lib j m, ?_, ?_⟩
      · intro hm1
        exact runParse_neg_flag hm1
      · intro h0
        obtain ⟨n, hn, hmem, hfe⟩ := runParse_feedback_ok h0
        exact ⟨j, n, rfl, hn, hmem, hfe⟩

theorem settings_load_feedback_hz_witness :
    ∃ j n, loaded_json (.contents sample_settings_json) = some j ∧
      jlookup j "feedback_hz" = some (.jint n) ∧
      (n = 50 ∨ n = 100 ∨ n = 200) ∧
      (settings_load_from_file lib_always_ok (.contents sample_settings_json)
        true settings_module_init).2.st.settings.feedback_hz = n :=
  (settings_load_feedback_hz lib_always_ok (.contents sample_settings_json)
    true settings_module_init).2.2 (by decide)

/-- C9: before any successful load (`was_load_successful` still 0, as at
program start) `settings_get` and the four controller getters return -1 and
leave the caller's output untouched; once a load has succeeded they return 0
and copy the loaded value out; and a load marks `was_load_successful` true
exactly when it returns 0. -/
theorem settings_get_requires_load :
    (∀ (m : SettingsModule) (out : settings_t), m.was_load_successful = false →
      settings_get m out = (-1, out)) ∧
    (∀ (m : SettingsModule) (out : settings_t), m.was_load_successful = true →
      settings_get m out = (0, m.st.settings)) ∧
    (∀ (m : SettingsModule) (c : rc_filter_t), m.was_load_successful = false →
      settings_get_roll_controller m c = (-1, c)) ∧
    (∀ (m : SettingsModule) (c : rc_filter_t), m.was_load_successful = true →
      settings_get_roll_controller m c = (0, m.st.roll_controller)) ∧
    (∀ (m : SettingsModule) (c : rc_filter_t), m.was_load_successful = false →
      settings_get_pitch_controller m c = (-1, c)) ∧
    (∀ (m : SettingsModule) (c : rc_filter_t), m.was_load_successful = true →
      settings_get_pitch_controller m c = (0, m.st.pitch_controller)) ∧
    (∀ (m : SettingsModule) (c : rc_filter_t), m.was_load_successful = false →
      settings_get_yaw_controller m c = (-1, c)) ∧
    (∀ (m : SettingsModule) (c : rc_filter_t), m.was_load_successful = true →
      settings_get_yaw_controller m c = (0, m.st.yaw_controller)) ∧
    (∀ (m : SettingsModule) (c : rc_filter_t), m.was_load_successful = false →
      settings_get_altitude_controller m c = (-1, c)) ∧
    (∀ (m : SettingsModule) (c : rc_filter_t), m.was_load_successful = true →
      settings_get_altitude_controller m c = (0, m.st.altitude_controller)) ∧
    settings_module_init.was_load_successful = false ∧
    (∀ (lib : FilterLib) (file : SettingsFile) (w : Bool) (m : SettingsModule),
      (settings_load_from_file lib file w m).2.was_load_successful = true ↔
        (settings_load_from_file lib file w m).1 = 0) := by
  refine ⟨?_, ?_, ?_, ?_, ?_, ?_, ?_, ?_, ?_, ?_, rfl, ?_⟩
  · intro m out h; simp [settings_get, h]
  · intro m out h; simp [settings_get, h]
  · intro m c h; simp [settings_get_roll_controller, h]
  · intro m c h; simp [settings_get_roll_controller, h]
  · intro m c h; simp [settings_get_pitch_controller, h]
  · intro m c h; simp [settings_get_pitch_controller, h]
  · intro m c h; simp [settings_get_yaw_controller, h]
  · intro m c h; simp [settings_get_yaw_controller, h]
  · intro m c h; simp [settings_get_altitude_controller, h]
  · intro m c h; simp [settings_get_altitude_controller, h]
  · intro lib file w m
    cases file with
    | unreadable => simp [settings_load_from_file]
    | absent => exact runParse_flag lib __load_default_settings m
    | contents j => exact runParse_flag lib j m

theorem settings_get_requires_load_witness :
    settings_get settings_module_init settings_zero = (-1, settings_zero) :=
  settings_get_requires_load.1 settings_module_init settings_zero rfl

/-- C10: when the settings file is absent the defaults are built in memory
with `enable_logging = false` and parsing proceeds on them; the result of
`__write_settings_to_disk` (which does report -1 on failure) is discarded by
the `if(__write_settings_to_disk()!=0) -1;` statement, so the outcome of
`settings_load_from_file` does not depend on it. -/
theorem settings_load_missing_file_defaults (lib : FilterLib) (w : Bool)
    (m : SettingsModule) :
    jlookup __load_default_settings "enable_logging" = some (.jbool false) ∧
    settings_load_from_file lib .absent w m = runParse lib __load_default_settings m ∧
    settings_load_from_file lib .absent w m = settings_load_from_file lib .absent (!w) m ∧
    __write_settings_to_disk false = -1 :=
  ⟨rfl, rfl, rfl, rfl⟩

theorem settings_load_enable_logging_witness :
    (settings_load_from_file lib_always_ok (.contents sample_settings_json) true
        settings_module_init).2.st.settings.enable_logging = true :=
  (settings_load_enable_logging lib_always_ok sample_settings_json true
      settings_module_init).2.1
    (outState (parse_head sample_settings_json settings_module_init.st)) true rfl rfl
